import Mathlib

/-!
Verification development for the nanobot agent runtime.

Shallow embedding of the parts of the code base that the checked
properties speak about: filesystem tool sandboxing, context compaction,
the message tool and fallback-reply logic, edit_file ambiguity handling,
user-content assembly with media, trust evaluation and tool permissions,
the tool registry dispatch, the bounded reason-act cycle, and message
splitting for channel limits.

External libraries (pathlib resolution, tiktoken, base64, difflib's
diff rendering, the LLM provider) are abstracted as explicit environment
parameters; everything the repository itself computes is embedded
directly.
-/

namespace Nanobot

/-! ## Python string primitives used throughout the code base -/

/-- Python whitespace for `str.strip()`. -/
def isPyWS (c : Char) : Bool :=
  c = ' ' || c = '\t' || c = '\n' || c = '\r' || c = '\x0b' || c = '\x0c'

/-- `str.strip()` on a character list. -/
def stripList (l : List Char) : List Char :=
  (((l.dropWhile isPyWS).reverse).dropWhile isPyWS).reverse

/-- `str.strip()`. -/
def pyStrip (s : String) : String :=
  ⟨stripList s.data⟩

/-- Test whether `pat` occurs at the head of `l`. -/
def headMatch : List Char → List Char → Bool
  | [], _ => true
  | _ :: _, [] => false
  | p :: ps, c :: cs => p = c && headMatch ps cs

/-- Number of non-overlapping occurrences of `pat` in `s`
(Python `str.count`): the empty pattern matches `len s + 1` times.
The fuel (initially `len s`) only bounds the scan, which consumes at
least one character per step. -/
def countSub (s pat : List Char) : Nat :=
  match pat with
  | [] => s.length + 1
  | _ :: _ => go s.length s
where
  go : Nat → List Char → Nat
    | _, [] => 0
    | 0, _ :: _ => 0
    | fuel + 1, c :: cs =>
      if headMatch pat (c :: cs) then 1 + go fuel (cs.drop (pat.length - 1))
      else go fuel cs

/-- Python `pat in s` (substring containment). -/
def isSub (s pat : List Char) : Bool :=
  match pat with
  | [] => true
  | _ :: _ =>
    match s with
    | [] => false
    | c :: cs => headMatch pat (c :: cs) || isSub cs pat

/-- `str.replace(old, new, 1)` for a non-empty needle already known to occur;
for the empty needle Python prepends `new` once. -/
def replaceFirst (s old new : List Char) : List Char :=
  match old with
  | [] => new ++ s
  | _ :: _ => go s
where
  go : List Char → List Char
    | [] => []
    | c :: cs =>
      if headMatch old (c :: cs) then new ++ (c :: cs).drop old.length
      else c :: go cs

/-- `str.lower()` (ASCII model of Python's case folding). -/
def pyLower (s : String) : String :=
  ⟨s.data.map Char.toLower⟩

/-- `s.startswith(pre)` (character-level prefix test). -/
def pyStartsWith (s pre : String) : Bool :=
  pre.data.isPrefixOf s.data

/-! ## Trust evaluation (`ContextManager.get_trust_level`, context.py) -/

/-- Score-to-level bucketing used by `get_trust_level`:
`>= 0.9` trusted, `> 0.7` high, `> 0.4` moderate, else low.
(`mkRat` renders the decimal literals; it keeps the development
kernel-computable.) -/
def levelOfScore (s : ℚ) : String :=
  if s ≥ mkRat 9 10 then "trusted"
  else if s > mkRat 7 10 then "high"
  else if s > mkRat 4 10 then "moderate"
  else "low"

/-- Rank of a trust level in the ordering `low < moderate < high < trusted`. -/
def levelRank : String → Nat
  | "trusted" => 3
  | "high" => 2
  | "moderate" => 1
  | _ => 0

/-- The `[trust]` section of IDENTITY.toml, restricted to the keys the
code reads (`default`, `known`). `none` fields model absent keys. -/
structure TrustSection where
  default : Option ℚ
  known : Option (List (String × ℚ))
  deriving Repr, DecidableEq

/-- `identity.get("trust", {})` is falsy when the section is missing or
carries none of its keys. -/
def trustFalsy : Option TrustSection → Bool
  | none => true
  | some ts => ts.default.isNone && ts.known.isNone

/-- Association-list lookup (Python `dict.get`; TOML keys are unique). -/
def dictGet (l : List (String × ℚ)) (k : String) : Option ℚ :=
  (l.find? (fun p => p.1 = k)).map Prod.snd

/-- Case-insensitive fallback scan over `trust.known`
(`if name.lower() == author.lower()`). -/
def ciLookup (l : List (String × ℚ)) (author : String) : Option ℚ :=
  (l.find? (fun p => pyLower p.1 = pyLower author)).map Prod.snd

/-- `ContextManager.get_trust_level(author, identity)`, embedded over the
trust section of the identity dict. -/
def getTrustLevel (author : String) (trust : Option TrustSection) : String :=
  if trustFalsy trust then "unknown"
  else
    match trust with
    | none => "unknown"
    | some ts =>
      let known := ts.known.getD []
      let byKey := dictGet known (pyLower author)
      let authorTrust := match byKey with
        | some v => some v
        | none => ciLookup known author
      let score := match authorTrust with
        | some v => v
        | none => ts.default.getD (mkRat 3 10)
      levelOfScore score

/-! ## Tool permissions (`ContextManager.get_allowed_tools`, context.py) -/

/-- The `[autonomy]` section of IDENTITY.toml. -/
structure AutonomySection where
  free : List (String × Bool)
  requiresConfirmation : List (String × Bool)
  deriving Repr, DecidableEq

/-- Identity dict, restricted to the keys consumed by trust evaluation and
tool permissioning. -/
structure Identity where
  trust : Option TrustSection
  autonomy : AutonomySection
  deriving Repr, DecidableEq

/-- Result of `get_allowed_tools`. -/
structure ToolPermissions where
  autonomous : List String
  confirmationRequired : List String
  deriving Repr, DecidableEq

/-- Action names whose flag is true (`[action for action, enabled in d.items() if enabled]`). -/
def enabledActions (l : List (String × Bool)) : List String :=
  (l.filter (fun p => p.2)).map Prod.fst

/-- `ContextManager.get_allowed_tools(author, identity, trust_level)`. -/
def getAllowedTools (author : String) (identity : Identity)
    (trustLevel : Option String) : ToolPermissions :=
  let autonomous := enabledActions identity.autonomy.free
  let confirmationRequired := enabledActions identity.autonomy.requiresConfirmation
  let level := match trustLevel with
    | some l => l
    | none => getTrustLevel author identity.trust
  if level = "trusted" then
    { autonomous := autonomous ++ confirmationRequired, confirmationRequired := [] }
  else
    { autonomous := autonomous, confirmationRequired := confirmationRequired }

/-! ## Message splitting (`split_message`, channels/utils.py) -/

/-- Python `text.rfind(c, 0, stop)` for a single character: the largest
index `i < stop` (and `i < len`) with `text[i] = c`, if any. -/
def rfindCharBefore (l : List Char) (c : Char) (stop : Nat) : Option Nat :=
  ((List.range (min stop l.length)).filter (fun i => l.get? i = some c)).getLast?

/-- Fallback cut of `split_message`: last space in `text[0:limit]`, else a
hard cut at `limit` (a hit at index 0 counts as not found: `cut <= 0`). -/
def chooseCutFallback (text : List Char) (limit : Nat) : Nat :=
  match rfindCharBefore text ' ' limit with
  | some j => if 0 < j then j else limit
  | none => limit

/-- The cut point chosen by one iteration of `split_message`'s loop:
last newline in `text[0:limit]`, else the space/hard fallback. -/
def chooseCut (text : List Char) (limit : Nat) : Nat :=
  match rfindCharBefore text '\n' limit with
  | some i => if 0 < i then i else chooseCutFallback text limit
  | none => chooseCutFallback text limit

/-- The `while text:` loop of `split_message`, with fuel bounding the
number of iterations (each iteration shortens `text`). -/
def splitGo (limit : Nat) : Nat → List Char → List (List Char)
  | _, [] => []
  | 0, _ :: _ => []
  | fuel + 1, text@(_ :: _) =>
    if text.length ≤ limit then [text]
    else
      let cut := chooseCut text limit
      text.take cut :: splitGo limit fuel ((text.drop cut).dropWhile (· = '\n'))

/-- `split_message(text, limit)` from channels/utils.py. -/
def split_message (text : String) (limit : Nat) : List String :=
  if text.length ≤ limit then [text]
  else (splitGo limit text.data.length text.data).map (⟨·⟩)

/-! ## Sliding-window compaction (`ContextManager`, context.py, and
`Summarizer.summarize_messages`, summarizer.py) -/

/-- A chat message as consumed by the compaction pipeline
(`{"role": ..., "content": ...}` with string content). -/
structure ChatMsg where
  role : String
  content : String
  deriving Repr, DecidableEq

/-- `m.get("role") in ("user", "assistant")`. -/
def isConvRole (m : ChatMsg) : Bool :=
  m.role = "user" || m.role = "assistant"

/-- `"".join(m.get("content", "") ...)` over a message list. -/
def joinContents (msgs : List ChatMsg) : String :=
  String.join (msgs.map (·.content))

/-- `int(max_tokens * token_threshold)` for the default threshold 0.75
(exact in binary floating point for any realistic token count). -/
def tokenThreshold (maxTokens : Nat) : Nat :=
  3 * maxTokens / 4

/-- `ContextManager.needs_compaction` (the boolean component; token
counting via tiktoken is abstracted as `countTokens`). `max_tokens = 0`
is falsy in Python, like `None`. -/
def needsCompaction (msgs : List ChatMsg) (windowSize : Nat)
    (maxTokens : Option Nat) (countTokens : String → Nat) : Bool :=
  let conversationCount := (msgs.filter isConvRole).length
  if conversationCount > windowSize then true
  else
    match maxTokens with
    | some m =>
      if m = 0 then false
      else countTokens (joinContents msgs) > tokenThreshold m
    | none => false

/-- The conversation part of a message list: everything after a leading
system message, or the whole list. -/
def convOf (msgs : List ChatMsg) : List ChatMsg :=
  match msgs with
  | [] => []
  | m0 :: rest => if m0.role = "system" then rest else m0 :: rest

/-- The leading system message, if any. -/
def sysOf (msgs : List ChatMsg) : Option ChatMsg :=
  match msgs with
  | [] => none
  | m0 :: _ => if m0.role = "system" then some m0 else none

/-- `ContextManager.prepare_for_compaction`: split into
(old, recent, system message). -/
def prepareForCompaction (msgs : List ChatMsg) (keepRecent : Nat) :
    List ChatMsg × List ChatMsg × Option ChatMsg :=
  match msgs with
  | [] => ([], [], none)
  | m0 :: rest =>
    let sysMsg := if m0.role = "system" then some m0 else none
    let conversation := if m0.role = "system" then rest else m0 :: rest
    if conversation.length ≤ keepRecent then ([], conversation, sysMsg)
    else
      let splitPoint := conversation.length - keepRecent
      (conversation.take splitPoint, conversation.drop splitPoint, sysMsg)

/-- The summary record `apply_compaction` inserts — only when the summary
is truthy and has non-whitespace content (`if summary and summary.strip()`). -/
def summaryRecord (summary : String) : List ChatMsg :=
  if summary ≠ "" ∧ pyStrip summary ≠ "" then
    [{ role := "system", content := "[Summary of earlier conversation]\n" ++ summary }]
  else []

/-- `ContextManager.apply_compaction`. -/
def applyCompaction (sysMsg : Option ChatMsg) (summary : String)
    (recent : List ChatMsg) : List ChatMsg :=
  sysMsg.toList ++ summaryRecord summary ++ recent

/-- `Summarizer._format_messages_for_summary`: render non-system,
non-tool, non-empty messages as `Role: content` lines joined by blank
lines. -/
def formatMessagesForSummary (msgs : List ChatMsg) : String :=
  String.intercalate "\n\n"
    ((msgs.filter fun m =>
        m.role ≠ "system" && m.role ≠ "tool" && m.content ≠ "").map fun m =>
      if m.role = "user" then "User: " ++ m.content
      else if m.role = "assistant" then "Assistant: " ++ m.content
      else m.role ++ ": " ++ m.content)

/-- `Summarizer.summarize_messages`, with the provider call abstracted:
`prov` is the outcome of `provider.chat` (`.error` = exception,
`.ok c` = a response whose `content` is `c`). All provider failures are
caught inside this function, so it never raises. -/
def summarizeMessages (msgs : List ChatMsg)
    (prov : Except Unit (Option String)) : String :=
  if msgs = [] then ""
  else if pyStrip (formatMessagesForSummary msgs) = "" then ""
  else
    match prov with
    | .ok content => pyStrip (content.getD "")
    | .error _ => "[Summary unavailable: " ++ toString msgs.length ++ " messages]"

/-- `ContextManager.compact_if_needed`. `hasSummarizer` models
`self.summarizer` being configured. The `except` branch around the
summarizer call is dead code (`summarize_messages` never raises), so the
embedding calls it directly. -/
def compactIfNeeded (msgs : List ChatMsg) (windowSize : Nat)
    (maxTokens : Option Nat) (countTokens : String → Nat) (keepRecent : Nat)
    (hasSummarizer : Bool) (prov : Except Unit (Option String)) :
    List ChatMsg × Bool :=
  if !(needsCompaction msgs windowSize maxTokens countTokens) then (msgs, false)
  else if !hasSummarizer then (msgs, false)
  else if (prepareForCompaction msgs keepRecent).1 = [] then (msgs, false)
  else
    (applyCompaction (prepareForCompaction msgs keepRecent).2.2
      (summarizeMessages (prepareForCompaction msgs keepRecent).1 prov)
      (prepareForCompaction msgs keepRecent).2.1, true)

/-! ## Tool registry dispatch (`ToolRegistry.execute`, registry.py) -/

/-- A Python value as it appears in tool-call argument dicts (only the
string/other distinction is ever inspected by the embedded code). -/
inductive PyVal where
  | str (s : String)
  | other
  deriving Repr, DecidableEq

/-- Tool-call arguments (`dict[str, Any]`, insertion-ordered). -/
abbrev Params := List (String × PyVal)

/-- A registered tool, at the interface the registry consumes: a name,
`validate_params` (which may itself raise: `.error`), and `execute`
(which may raise). Both are abstract per tool. -/
structure RegTool where
  name : String
  validate : Params → Except String (List String)
  run : Params → Except String String

/-- `ToolRegistry.execute(name, params)`: dict lookup, parameter
validation, execution; every exception is caught and rendered as an
error string, so the result is always a plain string value. -/
def registryExecute (tools : List (String × RegTool)) (name : String)
    (params : Params) : String :=
  match (tools.find? (fun p => p.1 = name)).map Prod.snd with
  | none => "Error: Tool '" ++ name ++ "' not found"
  | some tool =>
    match tool.validate params with
    | .error e => "Error executing " ++ name ++ ": " ++ e
    | .ok errors =>
      if errors ≠ [] then
        "Error: Invalid parameters for tool '" ++ name ++ "': " ++
          String.intercalate "; " errors
      else
        match tool.run params with
        | .error e => "Error executing " ++ name ++ ": " ++ e
        | .ok r => r

/-! ## User-content assembly with media
(`ContextManager._build_user_content`, context.py) -/

/-- Abstraction of the filesystem/MIME/base64 libraries consulted by
`_build_user_content`: `isFile` is `Path.is_file`, `guessMime` is
`mimetypes.guess_type`, and `b64 path` is the base64 encoding of the
bytes read from `path`. -/
structure MediaEnv where
  isFile : String → Bool
  guessMime : String → Option String
  b64 : String → String

/-- One element of a structured user-content array. -/
inductive UserContentPart where
  | imageUrl (url : String)
  | text (t : String)
  deriving Repr, DecidableEq

/-- The result of `_build_user_content`: plain text or a structured
content array. -/
inductive UserContent where
  | plain (t : String)
  | parts (l : List UserContentPart)
  deriving Repr, DecidableEq

/-- The filter of the media loop: skip unless the path is a file with a
truthy MIME type starting with `image/`. -/
def isImagePath (env : MediaEnv) (path : String) : Bool :=
  env.isFile path &&
    (match env.guessMime path with
     | some m => pyStartsWith m "image/"
     | none => false)

/-- The `image_url` parts collected by the media loop, in order. -/
def mediaImages (env : MediaEnv) (paths : List String) : List UserContentPart :=
  paths.filterMap fun path =>
    if isImagePath env path then
      some (.imageUrl
        ("data:" ++ (env.guessMime path).getD "" ++ ";base64," ++ env.b64 path))
    else none

/-- `ContextManager._build_user_content(text, media)`. -/
def buildUserContent (env : MediaEnv) (text : String)
    (media : Option (List String)) : UserContent :=
  match media with
  | none => .plain text
  | some [] => .plain text
  | some (p :: ps) =>
    let images := mediaImages env (p :: ps)
    if images = [] then .plain text
    else .parts (images ++ [.text text])

/-! ## edit_file ambiguity handling (`EditFileTool`, filesystem.py, with
difflib's `SequenceMatcher.ratio` embedded for junk-free inputs) -/

/-- Python line-break characters recognised by `str.splitlines`. -/
def isLineBreak (c : Char) : Bool :=
  c = '\n' || c = '\r' || c = '\x0b' || c = '\x0c' ||
    c = '\x1c' || c = '\x1d' || c = '\x1e' || c = '\x85' ||
    c = '\u2028' || c = '\u2029'

/-- `str.splitlines(keepends=True)` (with `\r\n` kept as one break). -/
def splitlinesKeepends (l : List Char) : List (List Char) :=
  go l []
where
  go : List Char → List Char → List (List Char)
    | [], acc => if acc = [] then [] else [acc.reverse]
    | '\r' :: '\n' :: rest, acc => (acc.reverse ++ ['\r', '\n']) :: go rest []
    | c :: rest, acc =>
      if isLineBreak c then (acc.reverse ++ [c]) :: go rest []
      else go rest (c :: acc)

/-- Length of the common prefix of two line sequences. -/
def commonPrefixLen : List (List Char) → List (List Char) → Nat
  | x :: xs, y :: ys => if x = y then 1 + commonPrefixLen xs ys else 0
  | _, _ => 0

/-- `SequenceMatcher.find_longest_match` on junk-free sequences: maximal
matching run length, earliest start in `a`, then earliest start in `b`
(strict improvement in the scan order realises difflib's tie-break). -/
def longestMatch (a b : List (List Char)) : Nat × Nat × Nat :=
  (List.range a.length).foldl (fun best i =>
    (List.range b.length).foldl (fun best j =>
      let k := commonPrefixLen (a.drop i) (b.drop j)
      if k > best.2.2 then (i, j, k) else best) best) (0, 0, 0)

/-- Total size of all matching blocks (`get_matching_blocks` recursion;
the fuel bounds the recursion depth, which shrinks the combined length
at every level). -/
def matchTotal : Nat → List (List Char) → List (List Char) → Nat
  | 0, _, _ => 0
  | fuel + 1, a, b =>
    let m := longestMatch a b
    if m.2.2 = 0 then 0
    else
      matchTotal fuel (a.take m.1) (b.take m.2.1) + m.2.2 +
        matchTotal fuel (a.drop (m.1 + m.2.2)) (b.drop (m.2.1 + m.2.2))

/-- `SequenceMatcher(None, a, b).ratio()` = `2*M / (len a + len b)`. -/
def seqRatio (a b : List (List Char)) : ℚ :=
  mkRat (2 * (matchTotal (a.length + b.length) a b : Int)) (a.length + b.length)

/-- The window scan of `EditFileTool._not_found_message`: best
`(ratio, start)` over all windows of `len(old_lines)` lines, strict
improvement (`ratio > best_ratio`), initial value `(0.0, 0)`. -/
def bestWindow (oldLines lines : List (List Char)) : ℚ × Nat :=
  let window := oldLines.length
  (List.range (max 1 (lines.length + 1 - window))).foldl (fun best i =>
    let r := seqRatio oldLines ((lines.drop i).take window)
    if r > best.1 then (r, i) else best) (0, 0)

/-- The diagnostic produced by `EditFileTool.execute` at the content
level (string rendering of the unified diff and the percentage is
presentation, captured by the constructor arguments). -/
inductive EditDiag where
  | success
  | ambiguous (count : Nat)
  | diffHint (ratio : ℚ) (line : Nat)
  | noSimilar
  deriving Repr, DecidableEq

/-- `EditFileTool._not_found_message` reduced to its decision:
a diff hint against the best window iff `best_ratio > 0.5`
(`line` is `best_start + 1`). -/
def notFoundDiag (old content : String) : EditDiag :=
  let lines := splitlinesKeepends content.data
  let oldLines := splitlinesKeepends old.data
  let best := bestWindow oldLines lines
  if best.1 > mkRat 1 2 then .diffHint best.1 (best.2 + 1)
  else .noSimilar

/-- The content-level core of `EditFileTool.execute`: the (possibly
updated) file content and the diagnostic. -/
def editFileCore (content old new : String) : String × EditDiag :=
  if !(isSub content.data old.data) then (content, notFoundDiag old content)
  else
    let count := countSub content.data old.data
    if count > 1 then (content, .ambiguous count)
    else (⟨replaceFirst content.data old.data new.data⟩, .success)

/-! ## Filesystem tool sandboxing (`_resolve_path` and the four
filesystem tools, filesystem.py; `resolve_path` in utils/helpers.py is
the identical function) -/

/-- Abstraction of the `pathlib` operations consulted by
`_resolve_path`: `expanduser`, `is_absolute`, `/` (join against the
workspace) and `resolve` (full canonicalization following symlinks).
Paths are opaque strings (`str(Path)`). -/
structure PathEnv where
  expanduser : String → String
  isAbsolute : String → Bool
  join : String → String → String
  resolve : String → String

/-- The candidate path `_resolve_path` canonicalizes: tilde-expanded,
joined onto the workspace when relative and a workspace is set, then
resolved. -/
def resolvedOf (env : PathEnv) (path : String) (workspace : Option String) : String :=
  let p := env.expanduser path
  let p :=
    match workspace with
    | some ws => if env.isAbsolute p then p else env.join ws p
    | none => p
  env.resolve p

/-- `_resolve_path(path, workspace, allowed_dir)`: `.error` is the
`PermissionError` raised when `allowed_dir` is set and the resolved
path does not start with the resolved allowed directory. -/
def resolve_path (env : PathEnv) (path : String) (workspace : Option String)
    (allowedDir : Option String) : Except String String :=
  let resolved := resolvedOf env path workspace
  match allowedDir with
  | some a =>
    if !(pyStartsWith resolved (env.resolve a)) then
      .error ("Path " ++ path ++ " is outside allowed directory " ++ a)
    else .ok resolved
  | none => .ok resolved

/-- The filesystem state visible to the tools: file contents by
resolved path, a directory predicate, and directory listings
(`iterdir`: entry name and whether it is a directory). Parent-directory
structure is not modelled (paths are opaque), so `mkdir(parents=True)`
is a no-op here. -/

structure FileSys where
  files : String → Option String
  isDir : String → Bool
  entries : String → List (String × Bool)

/-- `Path.exists`: a file or a directory. -/
def fsExists (fs : FileSys) (p : String) : Bool :=
  (fs.files p).isSome || fs.isDir p

/-- The outcome of one tool invocation: the new filesystem, the string
returned to the model, and the resolved paths whose contents were read
or written. -/
structure ToolOutcome where
  fs : FileSys
  result : String
  touched : List String

/-- CPython's rendering of the `IsADirectoryError` raised when opening
a directory for reading or writing. -/
def isADirectoryMsg (p : String) : String :=
  "[Errno 21] Is a directory: '" ++ p ++ "'"

/-- `ReadFileTool.execute`. -/
def readFileExec (env : PathEnv) (fs : FileSys) (workspace : Option String)
    (allowedDir : Option String) (path : String) : ToolOutcome :=
  match resolve_path env path workspace allowedDir with
  | .error e => ⟨fs, "Error: " ++ e, []⟩
  | .ok fp =>
    if !(fsExists fs fp) then ⟨fs, "Error: File not found: " ++ path, []⟩
    else
      match fs.files fp with
      | none => ⟨fs, "Error: Not a file: " ++ path, []⟩
      | some content => ⟨fs, content, [fp]⟩

/-- `WriteFileTool.execute`. -/
def writeFileExec (env : PathEnv) (fs : FileSys) (workspace : Option String)
    (allowedDir : Option String) (path content : String) : ToolOutcome :=
  match resolve_path env path workspace allowedDir with
  | .error e => ⟨fs, "Error: " ++ e, []⟩
  | .ok fp =>
    if fs.isDir fp then
      ⟨fs, "Error writing file: " ++ isADirectoryMsg fp, []⟩
    else
      ⟨{ fs with files := fun q => if q = fp then some content else fs.files q },
        "Successfully wrote " ++ toString content.length ++ " bytes to " ++ path,
        [fp]⟩

/-- Rendering of the content-level edit diagnostics of `editFileCore`
(the unified-diff body and the similarity percentage of the diff hint
are presentation detail elided from the hint's rendering). -/
def editMsgOf (fp : String) : EditDiag → String
  | .success => "Successfully edited " ++ fp
  | .ambiguous count =>
    "Warning: old_text appears " ++ toString count ++
      " times. Please provide more context to make it unique."
  | .diffHint _ line =>
    "Error: old_text not found in " ++ fp ++ ".\nBest match at line " ++
      toString line
  | .noSimilar =>
    "Error: old_text not found in " ++ fp ++
      ". No similar text found. Verify the file content."

/-- `EditFileTool.execute`. -/
def editFileExec (env : PathEnv) (fs : FileSys) (workspace : Option String)
    (allowedDir : Option String) (path oldText newText : String) : ToolOutcome :=
  match resolve_path env path workspace allowedDir with
  | .error e => ⟨fs, "Error: " ++ e, []⟩
  | .ok fp =>
    if !(fsExists fs fp) then ⟨fs, "Error: File not found: " ++ path, []⟩
    else
      match fs.files fp with
      | none => ⟨fs, "Error editing file: " ++ isADirectoryMsg fp, []⟩
      | some content =>
        let r := editFileCore content oldText newText
        if r.2 = .success then
          ⟨{ fs with files := fun q => if q = fp then some r.1 else fs.files q },
            editMsgOf fp .success, [fp]⟩
        else ⟨fs, editMsgOf fp r.2, [fp]⟩

/-- Character-level `<=` on strings (codepoint lexicographic, as Python
compares the path names produced by `sorted`). -/
def strLeChars : List Char → List Char → Bool
  | [], _ => true
  | _ :: _, [] => false
  | c :: cs, d :: ds =>
    if c = d then strLeChars cs ds else decide (c.toNat < d.toNat)

/-- Insertion sort of directory entries by name (`sorted(iterdir())`). -/
def insertEntry (x : String × Bool) : List (String × Bool) → List (String × Bool)
  | [] => [x]
  | y :: ys =>
    if strLeChars x.1.data y.1.data then x :: y :: ys else y :: insertEntry x ys

/-- Sorted directory entries. -/
def sortEntries (l : List (String × Bool)) : List (String × Bool) :=
  l.foldr insertEntry []

/-- `ListDirTool.execute` (the folder/file marker glyphs appear
double-encoded in the source file; the intended glyphs are used here). -/
def listDirExec (env : PathEnv) (fs : FileSys) (workspace : Option String)
    (allowedDir : Option String) (path : String) : ToolOutcome :=
  match resolve_path env path workspace allowedDir with
  | .error e => ⟨fs, "Error: " ++ e, []⟩
  | .ok dp =>
    if !(fsExists fs dp) then ⟨fs, "Error: Directory not found: " ++ path, []⟩
    else if !(fs.isDir dp) then ⟨fs, "Error: Not a directory: " ++ path, []⟩
    else
      let items := (sortEntries (fs.entries dp)).map fun e =>
        (if e.2 then "📁 " else "📄 ") ++ e.1
      if items = [] then ⟨fs, "Directory " ++ path ++ " is empty", [dp]⟩
      else ⟨fs, String.intercalate "\n" items, [dp]⟩

/-! ## Message tool and single-reply de-duplication
(`MessageTool`, message.py; `AgentLoop._process_message` tail, loop.py) -/

/-- `OutboundMessage` (the fields the embedded code populates). -/
structure Outbound where
  channel : String
  chatId : String
  content : String
  replyTo : Option String := none
  metadata : List (String × String) := []
  deriving Repr, DecidableEq

/-- The message tool's mutable state: per-turn context (`set_context`)
and the `_sent_in_turn` flag; `hasCallback` models `_send_callback`
being configured. -/
structure MTState where
  defaultChannel : String
  defaultChatId : String
  sentInTurn : Bool
  hasCallback : Bool
  deriving Repr, DecidableEq

/-- `MessageTool.start_turn`. -/
def startTurn (st : MTState) : MTState := { st with sentInTurn := false }

/-- Python `value or default` for an optional string argument. -/
def orDefault (v : Option String) (d : String) : String :=
  match v with
  | some s => if s = "" then d else s
  | none => d

/-- One invocation of the message tool during a turn; `cbOutcome` is the
outcome of the awaited `send_callback` (`.error` = exception). -/
structure MsgInvocation where
  content : String
  channel : Option String
  chatId : Option String
  cbOutcome : Except String Unit

/-- Whether the callback outcome is a success. -/
def cbOk : Except String Unit → Bool
  | .ok _ => true
  | .error _ => false

/-- `MessageTool.execute`: returns the new state, the outbounds
published by this invocation (one on success, none otherwise) and the
result string. `_sent_in_turn` is set exactly on a successful publish. -/
def messageExecute (st : MTState) (inv : MsgInvocation) :
    MTState × List Outbound × String :=
  let ch := orDefault inv.channel st.defaultChannel
  let cid := orDefault inv.chatId st.defaultChatId
  if ch = "" || cid = "" then (st, [], "Error: No target channel/chat specified")
  else if !st.hasCallback then (st, [], "Error: Message sending not configured")
  else
    match inv.cbOutcome with
    | .ok _ =>
      ({ st with sentInTurn := true },
        [{ channel := ch, chatId := cid, content := inv.content }],
        "Message sent to " ++ ch ++ ":" ++ cid)
    | .error e => (st, [], "Error sending message: " ++ e)

/-- Whether an invocation will successfully publish, given the
turn-constant parts of the tool state (the defaults and the callback
never change during a turn). -/
def invPublishes (dch dcid : String) (hasCb : Bool) (inv : MsgInvocation) : Bool :=
  !(orDefault inv.channel dch = "" || orDefault inv.chatId dcid = "") &&
    hasCb && cbOk inv.cbOutcome

/-- All message-tool invocations of one turn, executed in order,
collecting the published outbounds. -/
def runTurn : MTState → List MsgInvocation → MTState × List Outbound
  | st, [] => (st, [])
  | st, inv :: rest =>
    let r := messageExecute st inv
    let rest' := runTurn r.1 rest
    (rest'.1, r.2.1 ++ rest'.2)

/-- `metadata.get("reply_to")` with Python truthiness
(`str(metadata["reply_to"]) if metadata.get("reply_to") else None`). -/
def replyToOf (metadata : List (String × String)) : Option String :=
  match (metadata.find? (fun p => p.1 = "reply_to")).map Prod.snd with
  | some v => if v = "" then none else some v
  | none => none

/-- The tail of `AgentLoop._process_message`: when the message tool
already sent a reply this turn, return no outbound; otherwise return
the one fallback outbound carrying `final_content` to the origin. -/
def processReply (sentInTurn : Bool) (originChannel originChatId : String)
    (finalContent : String) (metadata : List (String × String)) : Option Outbound :=
  if sentInTurn then none
  else some ⟨originChannel, originChatId, finalContent, replyToOf metadata, metadata⟩

/-! ## The reason-act cycle (`AgentLoop._run_agent_loop` and the filler
substitution in `_process_message`, loop.py) -/

/-- A tool call as returned by the provider. -/
structure ProvToolCall where
  id : String
  name : String
  arguments : Params
  deriving Repr, DecidableEq

/-- A provider response (the fields the loop consumes). -/
structure ProvResponse where
  content : Option String
  toolCalls : List ProvToolCall
  reasoningContent : Option String
  deriving Repr, DecidableEq

/-- Modelled from the spec: `LLMProvider.has_tool_calls` (providers/base.py
is not under src/); per §6 of the spec, `has_tool_calls ≡ tool_calls
non-empty`. -/
def hasToolCalls (r : ProvResponse) : Bool :=
  !r.toolCalls.isEmpty

/-- A serialized tool call inside an assistant message
(`{"id": ..., "type": "function", "function": {...}}`). -/
structure TCDict where
  id : String
  fnName : String
  fnArguments : String
  deriving Repr, DecidableEq

/-- A chat message as the loop builds it. -/
structure LMsg where
  role : String
  content : Option String := none
  toolCalls : List TCDict := []
  toolCallId : Option String := none
  name : Option String := none
  reasoningContent : Option String := none
  deriving Repr, DecidableEq

/-- The loop's collaborators: the provider (`chat`), the registry
(`execTool`) and `json.dumps` for argument serialization. -/
structure LoopEnv where
  chat : List LMsg → ProvResponse
  execTool : String → Params → String
  dumps : Params → String

/-- `ContextManager.add_assistant_message`: empty content and empty
reasoning are omitted. -/
def addAssistantMessage (messages : List LMsg) (content : Option String)
    (toolCalls : List TCDict) (reasoning : Option String) : List LMsg :=
  let msg : LMsg :=
    { role := "assistant",
      content := (match content with
        | some s => if s = "" then none else some s
        | none => none),
      toolCalls := toolCalls,
      reasoningContent := (match reasoning with
        | some s => if s = "" then none else some s
        | none => none) }
  messages ++ [msg]

/-- `ContextManager.add_tool_result`. -/
def addToolResult (messages : List LMsg) (id name result : String) : List LMsg :=
  let msg : LMsg :=
    { role := "tool", content := some result,
      toolCallId := some id, name := some name }
  messages ++ [msg]

/-- First index at which `pat` occurs in `l`. -/
def findSubAux (pat : List Char) : List Char → Nat → Option Nat
  | [], i => if headMatch pat [] then some i else none
  | c :: cs, i =>
    if headMatch pat (c :: cs) then some i else findSubAux pat cs (i + 1)

/-- `re.sub(r"<think>[\s\S]*?</think>", "", text)`: repeatedly remove
the span from each `<think>` to the first subsequent `</think>`;
an unmatched opener (no closer anywhere after it) matches nothing. -/
def removeThinkBlocks : Nat → List Char → List Char
  | 0, s => s
  | fuel + 1, s =>
    match findSubAux ("<think>".data) s 0 with
    | none => s
    | some i =>
      let after := s.drop (i + 7)
      match findSubAux ("</think>".data) after 0 with
      | none => s
      | some k => s.take i ++ removeThinkBlocks fuel (after.drop (k + 8))

/-- `AgentLoop._strip_think`. -/
def stripThink (text : Option String) : Option String :=
  match text with
  | none => none
  | some s =>
    if s = "" then none
    else
      let cleaned := pyStrip ⟨removeThinkBlocks s.length s.data⟩
      if cleaned = "" then none else some cleaned

/-- One entry of `AgentLoop._tool_hint`: `name("arg0"[:40]…)` when the
first argument value is a string, the bare name otherwise. -/
def fmtToolCall (tc : ProvToolCall) : String :=
  match tc.arguments.head? with
  | some (_, PyVal.str v) =>
    if v.data.length > 40 then
      tc.name ++ "(\"" ++ (⟨v.data.take 40⟩ : String) ++ "...\")"
    else tc.name ++ "(\"" ++ v ++ "\")"
  | _ => tc.name

/-- `AgentLoop._tool_hint`. -/
def toolHint (tcs : List ProvToolCall) : String :=
  String.intercalate ", " (tcs.map fmtToolCall)

/-- What one reason-act iteration returns. -/
structure LoopResult where
  content : Option String
  toolsUsed : List String
  calls : Nat
  progress : List String
  deriving Repr, DecidableEq

/-- Serial execution of the tool calls of one assistant turn, in
provider order, appending each result as a tool message. -/
def execToolCalls (env : LoopEnv) (msgs : List LMsg)
    (tcs : List ProvToolCall) : List LMsg × List String :=
  tcs.foldl (fun acc tc =>
    (addToolResult acc.1 tc.id tc.name (env.execTool tc.name tc.arguments),
      acc.2 ++ [tc.name])) (msgs, [])

/-- The iteration of `_run_agent_loop`: the first argument is the number
of remaining iterations (`max_iterations - iteration`); `calls` counts
provider invocations (instrumentation of the embedding). -/
def runAgentLoopGo (env : LoopEnv) (hasProgress : Bool) :
    Nat → List LMsg → List String → Nat → List String → LoopResult
  | 0, _msgs, used, calls, prog => ⟨none, used, calls, prog⟩
  | n + 1, msgs, used, calls, prog =>
    let r := env.chat msgs
    if hasToolCalls r then
      let prog' :=
        if hasProgress then
          prog ++ (match stripThink r.content with
            | some c => [c]
            | none => []) ++ [toolHint r.toolCalls]
        else prog
      let tcDicts := r.toolCalls.map fun tc =>
        TCDict.mk tc.id tc.name (env.dumps tc.arguments)
      let msgs' := addAssistantMessage msgs r.content tcDicts r.reasoningContent
      let e := execToolCalls env msgs' r.toolCalls
      runAgentLoopGo env hasProgress n e.1 (used ++ e.2) (calls + 1) prog'
    else ⟨stripThink r.content, used, calls + 1, prog⟩

/-- `AgentLoop._run_agent_loop(messages, on_progress)`. -/
def runAgentLoop (env : LoopEnv) (maxIterations : Nat) (msgs : List LMsg)
    (hasProgress : Bool) : LoopResult :=
  runAgentLoopGo env hasProgress maxIterations msgs [] 0 []

/-- The filler substitution of `_process_message` (lines 300–306):
empty, whitespace-only, or null final content is replaced by a neutral
reply chosen by whether the message was system-injected. -/
def substituteFiller (finalContent : Option String) (isSystem : Bool) : String :=
  match finalContent with
  | none =>
    if isSystem then "Background task completed."
    else "I've completed processing but have no response to give."
  | some s =>
    if s = "" ∨ pyStrip s = "" then
      if isSystem then "Background task completed."
      else "I've completed processing but have no response to give."
    else s

/-- A tool whose validation reports a missing parameter (for the C7
witness). -/
def c7badTool : Nanobot.RegTool :=
  { name := "boom",
    validate := fun _ => .ok ["content: required"],
    run := fun _ => .error "x" }

/-- A tool that runs successfully (for the C7 witness). -/
def c7okTool : Nanobot.RegTool :=
  { name := "echo",
    validate := fun _ => .ok [],
    run := fun _ => .ok "hi" }

/-- Concrete media environment for C5: `a.png` is an image file,
`b.txt` is a text file. -/
def c5env : Nanobot.MediaEnv :=
  { isFile := fun _ => true,
    guessMime := fun p => if p = "a.png" then some "image/png" else some "text/plain",
    b64 := fun _ => "QUJD" }

/-- Concrete path environment for the C1 witness: identity resolution
over slash-separated strings. -/
def c1env : Nanobot.PathEnv :=
  { expanduser := fun s => s,
    isAbsolute := fun s => Nanobot.pyStartsWith s "/",
    join := fun a b => a ++ "/" ++ b,
    resolve := fun s => s }

/-- Empty filesystem for the C1 witness. -/
def c1fs : Nanobot.FileSys :=
  { files := fun _ => none, isDir := fun _ => false, entries := fun _ => [] }

/-- A message-tool state for the C3 witness: context set to
`telegram:42`, callback configured, stale flag from a previous turn. -/
def c3st : Nanobot.MTState :=
  { defaultChannel := "telegram", defaultChatId := "42",
    sentInTurn := true, hasCallback := true }

/-- The constant provider response used by the C8 witness: always one
tool call. -/
def c8resp : Nanobot.ProvResponse :=
  { content := some "looping",
    toolCalls := [⟨"c1", "read_file", [("path", .str "a")]⟩],
    reasoningContent := none }

/-- A provider that always asks for a tool call (for the C8 witness). -/
def c8env : Nanobot.LoopEnv :=
  { chat := fun _ => c8resp,
    execTool := fun _ _ => "ok",
    dumps := fun _ => "{}" }

/-! ## Helper lemmas -/

theorem levelRank_levelOfScore_le {s1 s2 : ℚ} (h : s1 ≤ s2) :
    levelRank (levelOfScore s1) ≤ levelRank (levelOfScore s2) := by
  have e9 : mkRat 9 10 = (9 : ℚ)/10 := by norm_num [Rat.mkRat_eq_div]
  have e7 : mkRat 7 10 = (7 : ℚ)/10 := by norm_num [Rat.mkRat_eq_div]
  have e4 : mkRat 4 10 = (4 : ℚ)/10 := by norm_num [Rat.mkRat_eq_div]
  unfold levelOfScore levelRank
  simp only [e9, e7, e4]
  split_ifs with h1 h2 h3 h4 h5 h6 h7 h8 h9 <;> simp_all <;> linarith

theorem rfindCharBefore_lt_stop {l : List Char} {c : Char} {stop i : Nat}
    (h : rfindCharBefore l c stop = some i) : i < stop := by
  unfold rfindCharBefore at h
  have hmem := List.mem_of_mem_getLast? h
  have h1 := (List.mem_filter.mp hmem).1
  have h2 := List.mem_range.mp h1
  omega

theorem chooseCutFallback_le {text : List Char} {limit : Nat} :
    chooseCutFallback text limit ≤ limit := by
  unfold chooseCutFallback
  cases h : rfindCharBefore text ' ' limit with
  | none => exact le_refl _
  | some j =>
    have hj := rfindCharBefore_lt_stop h
    show (if 0 < j then j else limit) ≤ limit
    by_cases h0 : 0 < j
    · rw [if_pos h0]; omega
    · rw [if_neg h0]

theorem chooseCut_le {text : List Char} {limit : Nat} :
    chooseCut text limit ≤ limit := by
  unfold chooseCut
  cases h : rfindCharBefore text '\n' limit with
  | none => exact chooseCutFallback_le
  | some i =>
    have hi := rfindCharBefore_lt_stop h
    show (if 0 < i then i else chooseCutFallback text limit) ≤ limit
    by_cases h0 : 0 < i
    · rw [if_pos h0]; omega
    · rw [if_neg h0]; exact chooseCutFallback_le

theorem chooseCutFallback_pos {text : List Char} {limit : Nat} (hl : 1 ≤ limit) :
    1 ≤ chooseCutFallback text limit := by
  unfold chooseCutFallback
  cases h : rfindCharBefore text ' ' limit with
  | none => exact hl
  | some j =>
    show 1 ≤ if 0 < j then j else limit
    by_cases h0 : 0 < j
    · rw [if_pos h0]; omega
    · rw [if_neg h0]; exact hl

theorem chooseCut_pos {text : List Char} {limit : Nat} (hl : 1 ≤ limit) :
    1 ≤ chooseCut text limit := by
  unfold chooseCut
  cases h : rfindCharBefore text '\n' limit with
  | none => exact chooseCutFallback_pos hl
  | some i =>
    show 1 ≤ if 0 < i then i else chooseCutFallback text limit
    by_cases h0 : 0 < i
    · rw [if_pos h0]; omega
    · rw [if_neg h0]; exact chooseCutFallback_pos hl

theorem splitGo_spec (limit : Nat) (hl : 1 ≤ limit) :
    ∀ fuel text, text.length ≤ fuel →
      (∀ ch ∈ splitGo limit fuel text, ch.length ≤ limit) ∧
      (text ≠ [] → splitGo limit fuel text ≠ []) := by
  intro fuel
  induction fuel with
  | zero =>
    intro text hf
    have : text = [] := List.length_eq_zero.mp (Nat.le_zero.mp hf)
    subst this
    simp [splitGo]
  | succ n ih =>
    intro text hf
    match text with
    | [] => simp [splitGo]
    | c :: cs =>
      have heq : splitGo limit (n + 1) (c :: cs) =
          if (c :: cs).length ≤ limit then [c :: cs]
          else (c :: cs).take (chooseCut (c :: cs) limit) ::
            splitGo limit n
              (((c :: cs).drop (chooseCut (c :: cs) limit)).dropWhile (· = '\n')) := rfl
      by_cases hle : (c :: cs).length ≤ limit
      · rw [heq, if_pos hle]
        constructor
        · intro ch hch
          rw [List.mem_singleton] at hch
          subst hch
          exact hle
        · intro _
          simp
      · rw [heq, if_neg hle]
        have hcut1 : 1 ≤ chooseCut (c :: cs) limit := chooseCut_pos hl
        have hcutle : chooseCut (c :: cs) limit ≤ limit := chooseCut_le
        have hrest :
            (((c :: cs).drop (chooseCut (c :: cs) limit)).dropWhile (· = '\n')).length ≤ n := by
          have h1 : (((c :: cs).drop (chooseCut (c :: cs) limit)).dropWhile
              (· = '\n')).length ≤ ((c :: cs).drop (chooseCut (c :: cs) limit)).length :=
            (List.dropWhile_sublist _).length_le
          have h2 : ((c :: cs).drop (chooseCut (c :: cs) limit)).length =
              (c :: cs).length - chooseCut (c :: cs) limit := List.length_drop _ _
          simp only [List.length_cons] at h2 hf ⊢
          omega
        have hih := ih _ hrest
        constructor
        · intro ch hch
          rcases List.mem_cons.mp hch with h | h
          · subst h
            have := List.length_take (chooseCut (c :: cs) limit) (c :: cs)
            omega
          · exact hih.1 ch h
        · intro _
          simp

theorem countSub_go_eq_zero_iff (p : Char) (ps : List Char) :
    ∀ fuel s, s.length ≤ fuel →
      (countSub.go (p :: ps) fuel s = 0 ↔ isSub s (p :: ps) = false) := by
  intro fuel
  induction fuel with
  | zero =>
    intro s hs
    have : s = [] := List.length_eq_zero.mp (Nat.le_zero.mp hs)
    subst this
    simp [countSub.go, isSub]
  | succ n ih =>
    intro s hs
    match s with
    | [] => simp [countSub.go, isSub]
    | c :: cs =>
      by_cases hm : headMatch (p :: ps) (c :: cs)
      · simp [countSub.go, isSub, hm]
      · have hlen : cs.length ≤ n := by
          simp only [List.length_cons] at hs
          omega
        simp only [countSub.go, isSub, hm, if_neg (by simp [hm] : ¬ headMatch
          (p :: ps) (c :: cs) = true), Bool.false_or]
        exact ih cs hlen

theorem countSub_eq_zero_iff (s pat : List Char) :
    countSub s pat = 0 ↔ isSub s pat = false := by
  cases pat with
  | nil => simp [countSub, isSub]
  | cons p ps =>
    simpa [countSub] using countSub_go_eq_zero_iff p ps s.length s (le_refl _)

theorem messageExecute_state (st : MTState) (inv : MsgInvocation) :
    (messageExecute st inv).1.defaultChannel = st.defaultChannel ∧
    (messageExecute st inv).1.defaultChatId = st.defaultChatId ∧
    (messageExecute st inv).1.hasCallback = st.hasCallback ∧
    (messageExecute st inv).1.sentInTurn =
      (st.sentInTurn ||
        invPublishes st.defaultChannel st.defaultChatId st.hasCallback inv) ∧
    (messageExecute st inv).2.1.length =
      (if invPublishes st.defaultChannel st.defaultChatId st.hasCallback inv
        then 1 else 0) := by
  unfold messageExecute invPublishes
  by_cases h1 : orDefault inv.channel st.defaultChannel = "" ||
      orDefault inv.chatId st.defaultChatId = ""
  · simp [h1]
  · by_cases h2 : st.hasCallback
    · cases hcb : inv.cbOutcome with
      | ok u => simp [h1, h2, hcb, cbOk]
      | error e => simp [h1, h2, hcb, cbOk]
    · simp [h1, h2]

theorem runTurn_spec (invs : List MsgInvocation) :
    ∀ st : MTState,
      (runTurn st invs).1.defaultChannel = st.defaultChannel ∧
      (runTurn st invs).1.defaultChatId = st.defaultChatId ∧
      (runTurn st invs).1.hasCallback = st.hasCallback ∧
      (runTurn st invs).1.sentInTurn =
        (st.sentInTurn || invs.any
          (invPublishes st.defaultChannel st.defaultChatId st.hasCallback)) ∧
      (runTurn st invs).2.length =
        (invs.filter
          (invPublishes st.defaultChannel st.defaultChatId st.hasCallback)).length := by
  induction invs with
  | nil => intro st; simp [runTurn]
  | cons inv rest ih =>
    intro st
    obtain ⟨e1, e2, e3, e4, e5⟩ := messageExecute_state st inv
    obtain ⟨i1, i2, i3, i4, i5⟩ := ih (messageExecute st inv).1
    rw [e1] at i1
    rw [e2] at i2
    rw [e3] at i3
    rw [e1, e2, e3, e4] at i4
    rw [e1, e2, e3] at i5
    simp only [runTurn, List.any_cons, List.filter_cons, List.length_append]
    refine ⟨i1, i2, i3, ?_, ?_⟩
    · rw [i4, Bool.or_assoc]
    · rw [e5, i5]
      by_cases hp : invPublishes st.defaultChannel st.defaultChatId
          st.hasCallback inv
      · simp [hp]
        omega
      · simp [hp]

theorem runAgentLoopGo_calls (env : LoopEnv) (hasProgress : Bool) :
    ∀ n msgs used calls prog,
      (runAgentLoopGo env hasProgress n msgs used calls prog).calls ≤ calls + n := by
  intro n
  induction n with
  | zero => intro msgs used calls prog; simp [runAgentLoopGo]
  | succ m ih =>
    intro msgs used calls prog
    unfold runAgentLoopGo
    by_cases h : hasToolCalls (env.chat msgs)
    · simp only [h, if_true]
      have := ih (execToolCalls env (addAssistantMessage msgs (env.chat msgs).content
          ((env.chat msgs).toolCalls.map fun tc =>
            TCDict.mk tc.id tc.name (env.dumps tc.arguments))
          (env.chat msgs).reasoningContent) (env.chat msgs).toolCalls).1
        (used ++ (execToolCalls env (addAssistantMessage msgs (env.chat msgs).content
          ((env.chat msgs).toolCalls.map fun tc =>
            TCDict.mk tc.id tc.name (env.dumps tc.arguments))
          (env.chat msgs).reasoningContent) (env.chat msgs).toolCalls).2)
        (calls + 1)
        (if hasProgress then prog ++ (match stripThink (env.chat msgs).content with
          | some c => [c]
          | none => []) ++ [toolHint (env.chat msgs).toolCalls] else prog)
      omega
    · simp [h]

theorem runAgentLoopGo_exhaust (env : LoopEnv) (hasProgress : Bool)
    (hall : ∀ ms, hasToolCalls (env.chat ms) = true) :
    ∀ n msgs used calls prog,
      (runAgentLoopGo env hasProgress n msgs used calls prog).content = none ∧
      (runAgentLoopGo env hasProgress n msgs used calls prog).calls = calls + n := by
  intro n
  induction n with
  | zero => intro msgs used calls prog; simp [runAgentLoopGo]
  | succ m ih =>
    intro msgs used calls prog
    unfold runAgentLoopGo
    simp only [hall msgs, if_true]
    have := ih (execToolCalls env (addAssistantMessage msgs (env.chat msgs).content
        ((env.chat msgs).toolCalls.map fun tc =>
          TCDict.mk tc.id tc.name (env.dumps tc.arguments))
        (env.chat msgs).reasoningContent) (env.chat msgs).toolCalls).1
      (used ++ (execToolCalls env (addAssistantMessage msgs (env.chat msgs).content
        ((env.chat msgs).toolCalls.map fun tc =>
          TCDict.mk tc.id tc.name (env.dumps tc.arguments))
        (env.chat msgs).reasoningContent) (env.chat msgs).toolCalls).2)
      (calls + 1)
      (if hasProgress then prog ++ (match stripThink (env.chat msgs).content with
        | some c => [c]
        | none => []) ++ [toolHint (env.chat msgs).toolCalls] else prog)
    exact ⟨this.1, by omega⟩

theorem resolve_path_ok {env : PathEnv} {path : String} {ws : Option String}
    {a fp : String} (h : resolve_path env path ws (some a) = .ok fp) :
    fp = resolvedOf env path ws ∧ pyStartsWith fp (env.resolve a) = true := by
  unfold resolve_path at h
  by_cases hp : pyStartsWith (resolvedOf env path ws) (env.resolve a)
  · simp only [hp, Bool.not_true, Bool.false_eq_true, if_false] at h
    cases h
    exact ⟨rfl, hp⟩
  · simp only [Bool.not_eq_true] at hp
    simp [hp] at h

theorem readFileExec_touched {env : PathEnv} {fs : FileSys} {ws : Option String}
    {a path t : String}
    (ht : t ∈ (readFileExec env fs ws (some a) path).touched) :
    pyStartsWith t (env.resolve a) = true := by
  unfold readFileExec at ht
  cases hr : resolve_path env path ws (some a) with
  | error e => simp [hr] at ht
  | ok fp =>
    have hok := resolve_path_ok hr
    rw [hr] at ht
    by_cases he : fsExists fs fp
    · simp only [he, Bool.not_true, Bool.false_eq_true, if_false] at ht
      cases hf : fs.files fp with
      | none => simp [hf] at ht
      | some content =>
        simp only [hf, List.mem_singleton] at ht
        subst ht
        exact hok.2
    · simp only [Bool.not_eq_true] at he
      simp [he] at ht

theorem writeFileExec_touched {env : PathEnv} {fs : FileSys} {ws : Option String}
    {a path content t : String}
    (ht : t ∈ (writeFileExec env fs ws (some a) path content).touched) :
    pyStartsWith t (env.resolve a) = true := by
  unfold writeFileExec at ht
  cases hr : resolve_path env path ws (some a) with
  | error e => simp [hr] at ht
  | ok fp =>
    have hok := resolve_path_ok hr
    rw [hr] at ht
    by_cases hd : fs.isDir fp
    · simp [hd] at ht
    · simp only [hd, Bool.false_eq_true, if_false, List.mem_singleton] at ht
      subst ht
      exact hok.2

theorem editFileExec_touched {env : PathEnv} {fs : FileSys} {ws : Option String}
    {a path oldText newText t : String}
    (ht : t ∈ (editFileExec env fs ws (some a) path oldText newText).touched) :
    pyStartsWith t (env.resolve a) = true := by
  unfold editFileExec at ht
  cases hr : resolve_path env path ws (some a) with
  | error e => simp [hr] at ht
  | ok fp =>
    have hok := resolve_path_ok hr
    rw [hr] at ht
    by_cases he : fsExists fs fp
    · simp only [he, Bool.not_true, Bool.false_eq_true, if_false] at ht
      cases hf : fs.files fp with
      | none => simp [hf] at ht
      | some content =>
        simp only [hf] at ht
        by_cases hsucc : (editFileCore content oldText newText).2 = EditDiag.success
        · simp only [hsucc, if_pos, List.mem_singleton, if_true] at ht
          subst ht
          exact hok.2
        · simp only [if_neg hsucc, List.mem_singleton] at ht
          subst ht
          exact hok.2
    · simp only [Bool.not_eq_true] at he
      simp [he] at ht

theorem listDirExec_touched {env : PathEnv} {fs : FileSys} {ws : Option String}
    {a path t : String}
    (ht : t ∈ (listDirExec env fs ws (some a) path).touched) :
    pyStartsWith t (env.resolve a) = true := by
  unfold listDirExec at ht
  cases hr : resolve_path env path ws (some a) with
  | error e => simp [hr] at ht
  | ok dp =>
    have hok := resolve_path_ok hr
    rw [hr] at ht
    by_cases he : fsExists fs dp
    · by_cases hd : fs.isDir dp
      · simp only [he, hd, Bool.not_true, Bool.false_eq_true, if_false] at ht
        by_cases hi : ((sortEntries (fs.entries dp)).map fun e =>
            (if e.2 then "📁 " else "📄 ") ++ e.1) = []
        · simp only [hi, if_true, List.mem_singleton] at ht
          subst ht
          exact hok.2
        · simp only [hi, if_false, List.mem_singleton] at ht
          subst ht
          exact hok.2
      · simp only [Bool.not_eq_true] at hd
        simp [he, hd] at ht
    · simp only [Bool.not_eq_true] at he
      simp [he] at ht

theorem prepareForCompaction_of_gt {msgs : List ChatMsg} {k : Nat}
    (h : k < (convOf msgs).length) :
    prepareForCompaction msgs k =
      ((convOf msgs).take ((convOf msgs).length - k),
       (convOf msgs).drop ((convOf msgs).length - k),
       sysOf msgs) := by
  match msgs with
  | [] => simp [convOf] at h
  | m0 :: rest =>
    by_cases hs : m0.role = "system" <;>
      simp only [prepareForCompaction, convOf, sysOf, hs, if_pos, if_neg,
        ite_true, ite_false] at h ⊢ <;>
      rw [if_neg (by omega)]

theorem prepareForCompaction_old_nil {msgs : List ChatMsg} {k : Nat}
    (h : (convOf msgs).length ≤ k) :
    (prepareForCompaction msgs k).1 = [] := by
  match msgs with
  | [] => simp [prepareForCompaction]
  | m0 :: rest =>
    by_cases hs : m0.role = "system" <;>
      simp only [prepareForCompaction, convOf, hs, ite_true, ite_false] at h ⊢ <;>
      rw [if_pos h]

end Nanobot

/-- C9: the trust-score-to-level mapping (trusted iff score ≥ 0.9, high iff
score > 0.7, moderate iff score > 0.4, else low) is monotone: for all
scores `s1 ≤ s2`, the level of `s1` is at most the level of `s2` in the
ordering low < moderate < high < trusted. -/
theorem C9_trust_level_monotone (s1 s2 : ℚ) (h : s1 ≤ s2) :
    Nanobot.levelRank (Nanobot.levelOfScore s1) ≤
      Nanobot.levelRank (Nanobot.levelOfScore s2) :=
  Nanobot.levelRank_levelOfScore_le h

/-- Witness for C9 at scores 0.5 ≤ 0.95. -/
theorem C9_trust_level_monotone_witness :
    mkRat 1 2 ≤ mkRat 19 20 ∧
      Nanobot.levelRank (Nanobot.levelOfScore (mkRat 1 2)) ≤
        Nanobot.levelRank (Nanobot.levelOfScore (mkRat 19 20)) :=
  ⟨by decide, C9_trust_level_monotone (mkRat 1 2) (mkRat 19 20) (by decide)⟩

/-- C6: for an author whose trust level evaluates to trusted,
`get_allowed_tools` returns the enabled free actions followed by the
enabled requires-confirmation actions as autonomous with an empty
confirmation list; for any other trust level it returns the enabled free
actions as autonomous and the enabled requires-confirmation actions as
confirmation-required, exactly as configured. -/
theorem C6_allowed_tools_by_trust (author : String) (identity : Nanobot.Identity) :
    (Nanobot.getTrustLevel author identity.trust = "trusted" →
      Nanobot.getAllowedTools author identity none =
        { autonomous :=
            Nanobot.enabledActions identity.autonomy.free ++
              Nanobot.enabledActions identity.autonomy.requiresConfirmation,
          confirmationRequired := [] }) ∧
    (Nanobot.getTrustLevel author identity.trust ≠ "trusted" →
      Nanobot.getAllowedTools author identity none =
        { autonomous := Nanobot.enabledActions identity.autonomy.free,
          confirmationRequired :=
            Nanobot.enabledActions identity.autonomy.requiresConfirmation }) := by
  constructor <;> intro h <;> simp [Nanobot.getAllowedTools, h]

/-- Witness for C6: the identity of spec scenario 4
(`trust.default=0.3`, `trust.known.skye=1.0`, free `{read}`,
requires-confirmation `{delete}`); author "skye" is trusted, author
"stranger" is not. -/
theorem C6_allowed_tools_by_trust_witness :
    Nanobot.getAllowedTools "skye"
        { trust := some { default := some (mkRat 3 10), known := some [("skye", 1)] },
          autonomy := { free := [("read", true)],
                        requiresConfirmation := [("delete", true)] } } none =
      { autonomous := ["read", "delete"], confirmationRequired := [] } ∧
    Nanobot.getAllowedTools "stranger"
        { trust := some { default := some (mkRat 3 10), known := some [("skye", 1)] },
          autonomy := { free := [("read", true)],
                        requiresConfirmation := [("delete", true)] } } none =
      { autonomous := ["read"], confirmationRequired := ["delete"] } := by
  refine ⟨(C6_allowed_tools_by_trust "skye" _).1 (by decide),
    (C6_allowed_tools_by_trust "stranger" _).2 (by decide)⟩

/-- C10: for every string `text` and limit ≥ 1, `split_message` returns a
non-empty list of chunks each of length at most `limit`; when
`len(text) ≤ limit` the result is the single-element list `[text]`. -/
theorem C10_split_message_bounded (text : String) (limit : Nat) (hl : 1 ≤ limit) :
    Nanobot.split_message text limit ≠ [] ∧
      (∀ ch ∈ Nanobot.split_message text limit, ch.length ≤ limit) ∧
      (text.length ≤ limit → Nanobot.split_message text limit = [text]) := by
  unfold Nanobot.split_message
  by_cases h : text.length ≤ limit
  · simp [h]
  · have hspec := Nanobot.splitGo_spec limit hl text.data.length text.data (le_refl _)
    have hne : text.data ≠ [] := by
      intro habs
      have : text.length = 0 := by
        simp [String.length, habs]
      omega
    refine ⟨?_, ?_, fun hc => absurd hc h⟩
    · simp only [if_neg h]
      intro habs
      exact (hspec.2 hne) (by simpa using congrArg (List.map String.data) habs)
    · intro ch hch
      simp only [if_neg h, List.mem_map] at hch
      obtain ⟨l, hl2, rfl⟩ := hch
      exact hspec.1 l hl2

/-- C2 counterexample: eleven user messages with empty content trigger
compaction, the summarizer returns a blank summary without consulting
the provider, and `compact_if_needed` returns `(recent, true)` with NO
system summary record — contradicting the claim that a `true` second
component always comes with exactly one new system-role summary record. -/
theorem C2_counterexample :
    (Nanobot.compactIfNeeded (List.replicate 11 { role := "user", content := "" })
        10 none (fun _ => 0) 10 true (Except.ok (some "S"))).2 = true ∧
      (Nanobot.compactIfNeeded (List.replicate 11 { role := "user", content := "" })
        10 none (fun _ => 0) 10 true (Except.ok (some "S"))).1 =
        List.replicate 10 { role := "user", content := "" } ∧
      ∀ m ∈ (Nanobot.compactIfNeeded
          (List.replicate 11 { role := "user", content := "" })
          10 none (fun _ => 0) 10 true (Except.ok (some "S"))).1,
        m.role ≠ "system" := by
  refine ⟨rfl, rfl, ?_⟩
  decide

/-- C2 (amended): `compact_if_needed` either returns the input unchanged
with second component false, or returns second component true together
with the original system message (if present), at most one new
system-role record whose content is `"[Summary of earlier conversation]\n"`
followed by the summary — the record is present exactly when the summary
is non-blank — and then the last `keep_recent` conversation messages
verbatim. -/
theorem C2_compaction_shape (msgs : List Nanobot.ChatMsg) (windowSize : Nat)
    (maxTokens : Option Nat) (countTokens : String → Nat) (keepRecent : Nat)
    (hasSummarizer : Bool) (prov : Except Unit (Option String)) :
    Nanobot.compactIfNeeded msgs windowSize maxTokens countTokens keepRecent
        hasSummarizer prov = (msgs, false) ∨
      ((Nanobot.prepareForCompaction msgs keepRecent).1 ≠ [] ∧
        Nanobot.compactIfNeeded msgs windowSize maxTokens countTokens keepRecent
            hasSummarizer prov =
          ((Nanobot.sysOf msgs).toList ++
            Nanobot.summaryRecord
              (Nanobot.summarizeMessages
                (Nanobot.prepareForCompaction msgs keepRecent).1 prov) ++
            (Nanobot.convOf msgs).drop
              ((Nanobot.convOf msgs).length - keepRecent), true)) := by
  unfold Nanobot.compactIfNeeded
  by_cases hn : Nanobot.needsCompaction msgs windowSize maxTokens countTokens
  · simp only [hn, Bool.not_true, Bool.false_eq_true, if_false]
    by_cases hs : hasSummarizer
    · simp only [hs, Bool.not_true, Bool.false_eq_true, if_false]
      by_cases ho : (Nanobot.prepareForCompaction msgs keepRecent).1 = []
      · simp only [ho, if_true]
        exact Or.inl trivial
      · simp only [ho, if_false]
        right
        have hgt : keepRecent < (Nanobot.convOf msgs).length := by
          by_contra hle
          exact ho (Nanobot.prepareForCompaction_old_nil (by omega))
        have hp := Nanobot.prepareForCompaction_of_gt hgt
        refine ⟨ho, ?_⟩
        rw [hp]
        rfl
    · simp only [hs, Bool.not_false, if_true]
      exact Or.inl trivial
  · simp only [hn, Bool.not_false, if_true]
    exact Or.inl trivial

/-- C7: `ToolRegistry.execute` returns a string and never raises (the
embedding is total by construction): an unregistered name yields the
not-found message, a validation failure yields an error string carrying
the offending-parameter diagnostics, a raising validator or tool is
rendered as an error string, and a successful run returns the tool
output. -/
theorem C7_registry_execute_policy (tools : List (String × Nanobot.RegTool))
    (name : String) (params : Nanobot.Params) :
    ((tools.find? (fun p => p.1 = name)) = none →
      Nanobot.registryExecute tools name params =
        "Error: Tool '" ++ name ++ "' not found") ∧
    (∀ nm tool, (tools.find? (fun p => p.1 = name)) = some (nm, tool) →
      (∀ e, tool.validate params = .error e →
        Nanobot.registryExecute tools name params =
          "Error executing " ++ name ++ ": " ++ e) ∧
      (∀ errors, tool.validate params = .ok errors → errors ≠ [] →
        Nanobot.registryExecute tools name params =
          "Error: Invalid parameters for tool '" ++ name ++ "': " ++
            String.intercalate "; " errors) ∧
      (∀ e, tool.validate params = .ok [] → tool.run params = .error e →
        Nanobot.registryExecute tools name params =
          "Error executing " ++ name ++ ": " ++ e) ∧
      (∀ out, tool.validate params = .ok [] → tool.run params = .ok out →
        Nanobot.registryExecute tools name params = out)) := by
  constructor
  · intro h
    simp [Nanobot.registryExecute, h]
  · intro nm tool h
    exact ⟨fun e he => by simp [Nanobot.registryExecute, h, he],
      fun errors he hne => by simp [Nanobot.registryExecute, h, he, hne],
      fun e hv hr => by simp [Nanobot.registryExecute, h, hv, hr],
      fun out hv hr => by simp [Nanobot.registryExecute, h, hv, hr]⟩

/-- Witness for C7: unknown tool, failing validation, and a clean run. -/
theorem C7_registry_execute_policy_witness :
    Nanobot.registryExecute [] "missing" [] = "Error: Tool 'missing' not found" ∧
      Nanobot.registryExecute [("boom", Nanobot.c7badTool)] "boom" [] =
        "Error: Invalid parameters for tool 'boom': content: required" ∧
      Nanobot.registryExecute [("echo", Nanobot.c7okTool)] "echo" [] = "hi" :=
  ⟨(C7_registry_execute_policy [] "missing" []).1 rfl,
    ((C7_registry_execute_policy [("boom", Nanobot.c7badTool)] "boom" []).2 "boom"
        Nanobot.c7badTool rfl).2.1 ["content: required"] rfl (by simp),
    (((C7_registry_execute_policy [("echo", Nanobot.c7okTool)] "echo" []).2 "echo"
        Nanobot.c7okTool rfl).2.2.2 "hi" rfl rfl)⟩

/-- C5 counterexample: with media `["a.png", "b.txt"]` — where `b.txt`
is NOT an image — the code still returns a structured content array
(containing only the valid image part), not the plain text the claim
requires for the "otherwise" case. -/
theorem C5_counterexample :
    Nanobot.isImagePath Nanobot.c5env "b.txt" = false ∧
      Nanobot.buildUserContent Nanobot.c5env "hi" (some ["a.png", "b.txt"]) =
        .parts [.imageUrl "data:image/png;base64,QUJD", .text "hi"] ∧
      Nanobot.buildUserContent Nanobot.c5env "hi" (some ["a.png", "b.txt"]) ≠
        .plain "hi" := by
  refine ⟨rfl, rfl, ?_⟩
  decide

/-- C5 (amended): if at least one media path is an existing image file,
the result is the structured array of image parts for exactly the
passing paths followed by one text part; otherwise (no media, or no
valid image among the paths) the result is the plain text unchanged. -/
theorem C5_user_content_shape (env : Nanobot.MediaEnv) (text : String)
    (media : Option (List String)) :
    ((media = none ∨ media = some []) →
      Nanobot.buildUserContent env text media = .plain text) ∧
    (∀ paths, media = some paths → Nanobot.mediaImages env paths = [] →
      Nanobot.buildUserContent env text media = .plain text) ∧
    (∀ paths, media = some paths → Nanobot.mediaImages env paths ≠ [] →
      Nanobot.buildUserContent env text media =
        .parts (Nanobot.mediaImages env paths ++ [.text text])) := by
  refine ⟨?_, ?_, ?_⟩
  · rintro (rfl | rfl) <;> rfl
  · rintro paths rfl hempty
    cases paths with
    | nil => rfl
    | cons p ps => simp [Nanobot.buildUserContent, hempty]
  · rintro paths rfl hne
    cases paths with
    | nil => simp [Nanobot.mediaImages] at hne
    | cons p ps => simp [Nanobot.buildUserContent, hne]

/-- Witness for C5 (amended) at the concrete environment: one valid
image among the media gives a structured array; a text-only path list
gives plain text. -/
theorem C5_user_content_shape_witness :
    Nanobot.buildUserContent Nanobot.c5env "hi" (some ["a.png", "b.txt"]) =
      .parts (Nanobot.mediaImages Nanobot.c5env ["a.png", "b.txt"] ++ [.text "hi"]) ∧
      Nanobot.buildUserContent Nanobot.c5env "hi" (some ["b.txt"]) = .plain "hi" :=
  ⟨(C5_user_content_shape Nanobot.c5env "hi" (some ["a.png", "b.txt"])).2.2
      ["a.png", "b.txt"] rfl (by decide),
    (C5_user_content_shape Nanobot.c5env "hi" (some ["b.txt"])).2.1
      ["b.txt"] rfl (by decide)⟩

/-- C4 counterexample: file `"x\nz\n"`, `old_text = "x\ny\n"` has zero
matches and the best-window similarity is exactly 1/2 (= 0.5), yet the
code produces the "no similar text found" diagnostic, not the diff hint
the claim requires for similarity "at least 0.5" (the code tests
`best_ratio > 0.5`, strictly). -/
theorem C4_counterexample :
    Nanobot.countSub ("x\nz\n" : String).data ("x\ny\n" : String).data = 0 ∧
      (Nanobot.bestWindow (Nanobot.splitlinesKeepends ("x\ny\n" : String).data)
          (Nanobot.splitlinesKeepends ("x\nz\n" : String).data)).1 = mkRat 1 2 ∧
      mkRat 1 2 ≥ mkRat 1 2 ∧
      (Nanobot.editFileCore "x\nz\n" "x\ny\n" "q").2 = Nanobot.EditDiag.noSimilar ∧
      (Nanobot.editFileCore "x\nz\n" "x\ny\n" "q").1 = "x\nz\n" := by
  refine ⟨by decide, by decide, by decide, by decide, by decide⟩

/-- C4 (amended): when `old_text` occurs zero times or two or more
times, `edit_file` leaves the content unchanged and returns a
diagnostic: for zero matches, a diff-hint against the best-matching
window when its similarity is strictly greater than 0.5, and otherwise
the "no similar text found" message; for two or more matches, the
more-unique-context warning. An ambiguous replacement is never
performed. -/
theorem C4_edit_ambiguity_safe (content old new : String)
    (h : Nanobot.countSub content.data old.data = 0 ∨
      2 ≤ Nanobot.countSub content.data old.data) :
    (Nanobot.editFileCore content old new).1 = content ∧
    (Nanobot.countSub content.data old.data = 0 →
      ((Nanobot.bestWindow (Nanobot.splitlinesKeepends old.data)
          (Nanobot.splitlinesKeepends content.data)).1 > mkRat 1 2 →
        (Nanobot.editFileCore content old new).2 =
          .diffHint
            (Nanobot.bestWindow (Nanobot.splitlinesKeepends old.data)
              (Nanobot.splitlinesKeepends content.data)).1
            ((Nanobot.bestWindow (Nanobot.splitlinesKeepends old.data)
              (Nanobot.splitlinesKeepends content.data)).2 + 1)) ∧
      (¬ ((Nanobot.bestWindow (Nanobot.splitlinesKeepends old.data)
          (Nanobot.splitlinesKeepends content.data)).1 > mkRat 1 2) →
        (Nanobot.editFileCore content old new).2 = .noSimilar)) ∧
    (2 ≤ Nanobot.countSub content.data old.data →
      (Nanobot.editFileCore content old new).2 =
        .ambiguous (Nanobot.countSub content.data old.data)) := by
  rcases h with h0 | h2
  · have hsub : Nanobot.isSub content.data old.data = false :=
      (Nanobot.countSub_eq_zero_iff _ _).mp h0
    refine ⟨?_, fun _ => ⟨fun hgt => ?_, fun hle => ?_⟩,
      fun habs => absurd habs (by omega)⟩
    · simp [Nanobot.editFileCore, hsub]
    · simp [Nanobot.editFileCore, hsub, Nanobot.notFoundDiag, hgt]
    · simp [Nanobot.editFileCore, hsub, Nanobot.notFoundDiag, hle]
  · have hsub : Nanobot.isSub content.data old.data = true := by
      rcases hb : Nanobot.isSub content.data old.data with _ | _
      · have := (Nanobot.countSub_eq_zero_iff content.data old.data).mpr hb
        omega
      · rfl
    have hgt1 : Nanobot.countSub content.data old.data > 1 := by omega
    refine ⟨?_, fun hz => absurd hz (by omega), fun _ => ?_⟩
    · simp [Nanobot.editFileCore, hsub, if_pos hgt1]
    · simp [Nanobot.editFileCore, hsub, if_pos hgt1]

/-- Witness for C4 (amended): spec scenario 6 — two occurrences of
`"x = 1"`, the edit is refused and the content is unchanged. -/
theorem C4_edit_ambiguity_safe_witness :
    Nanobot.countSub ("x = 1\nx = 1\n" : String).data ("x = 1" : String).data = 2 ∧
      (Nanobot.editFileCore "x = 1\nx = 1\n" "x = 1" "x = 2").1 = "x = 1\nx = 1\n" ∧
      (Nanobot.editFileCore "x = 1\nx = 1\n" "x = 1" "x = 2").2 =
        .ambiguous (Nanobot.countSub ("x = 1\nx = 1\n" : String).data
          ("x = 1" : String).data) :=
  ⟨by decide,
    (C4_edit_ambiguity_safe "x = 1\nx = 1\n" "x = 1" "x = 2"
      (Or.inr (by decide))).1,
    (C4_edit_ambiguity_safe "x = 1\nx = 1\n" "x = 1" "x = 2"
      (Or.inr (by decide))).2.2 (by decide)⟩

/-- C1: with `allowed_dir = A` set, every filesystem tool resolves the
requested path (tilde expansion, workspace join for relative paths,
full resolution) before the check; when the resolved path does not
start with the resolved `A` the tool touches no file, leaves the
filesystem unchanged and returns the permission-error string; and every
path a tool reads or writes starts with the resolved `A`. -/
theorem C1_filesystem_sandbox (env : Nanobot.PathEnv) (fs : Nanobot.FileSys)
    (ws : Option String) (A path content oldText newText : String) :
    (Nanobot.pyStartsWith (Nanobot.resolvedOf env path ws) (env.resolve A) = true →
      Nanobot.resolve_path env path ws (some A) =
        .ok (Nanobot.resolvedOf env path ws)) ∧
    (Nanobot.pyStartsWith (Nanobot.resolvedOf env path ws) (env.resolve A) = false →
      Nanobot.resolve_path env path ws (some A) =
        .error ("Path " ++ path ++ " is outside allowed directory " ++ A) ∧
      Nanobot.readFileExec env fs ws (some A) path =
        ⟨fs, "Error: " ++ ("Path " ++ path ++ " is outside allowed directory " ++ A), []⟩ ∧
      Nanobot.writeFileExec env fs ws (some A) path content =
        ⟨fs, "Error: " ++ ("Path " ++ path ++ " is outside allowed directory " ++ A), []⟩ ∧
      Nanobot.editFileExec env fs ws (some A) path oldText newText =
        ⟨fs, "Error: " ++ ("Path " ++ path ++ " is outside allowed directory " ++ A), []⟩ ∧
      Nanobot.listDirExec env fs ws (some A) path =
        ⟨fs, "Error: " ++ ("Path " ++ path ++ " is outside allowed directory " ++ A), []⟩) ∧
    (∀ t ∈ (Nanobot.readFileExec env fs ws (some A) path).touched,
      Nanobot.pyStartsWith t (env.resolve A) = true) ∧
    (∀ t ∈ (Nanobot.writeFileExec env fs ws (some A) path content).touched,
      Nanobot.pyStartsWith t (env.resolve A) = true) ∧
    (∀ t ∈ (Nanobot.editFileExec env fs ws (some A) path oldText newText).touched,
      Nanobot.pyStartsWith t (env.resolve A) = true) ∧
    (∀ t ∈ (Nanobot.listDirExec env fs ws (some A) path).touched,
      Nanobot.pyStartsWith t (env.resolve A) = true) := by
  refine ⟨fun hok => ?_, fun hbad => ?_,
    fun t ht => Nanobot.readFileExec_touched ht,
    fun t ht => Nanobot.writeFileExec_touched ht,
    fun t ht => Nanobot.editFileExec_touched ht,
    fun t ht => Nanobot.listDirExec_touched ht⟩
  · simp [Nanobot.resolve_path, hok]
  · have hres : Nanobot.resolve_path env path ws (some A) =
        .error ("Path " ++ path ++ " is outside allowed directory " ++ A) := by
      simp [Nanobot.resolve_path, hbad]
    refine ⟨hres, ?_, ?_, ?_, ?_⟩ <;>
      simp [Nanobot.readFileExec, Nanobot.writeFileExec, Nanobot.editFileExec,
        Nanobot.listDirExec, hres]

/-- Witness for C1 with `allowed_dir = "/ws"`: the absolute path
`"/etc/passwd"` resolves outside and is refused by all four tools with
the filesystem untouched; the relative path `"notes.txt"` resolves to
`"/ws/notes.txt"` inside the allowed directory. -/
theorem C1_filesystem_sandbox_witness :
    Nanobot.pyStartsWith (Nanobot.resolvedOf Nanobot.c1env "/etc/passwd" (some "/ws"))
        ((Nanobot.c1env).resolve "/ws") = false ∧
      Nanobot.readFileExec Nanobot.c1env Nanobot.c1fs (some "/ws") (some "/ws") "/etc/passwd" =
        ⟨Nanobot.c1fs, "Error: " ++
          ("Path " ++ "/etc/passwd" ++ " is outside allowed directory " ++ "/ws"), []⟩ ∧
      Nanobot.pyStartsWith (Nanobot.resolvedOf Nanobot.c1env "notes.txt" (some "/ws"))
        ((Nanobot.c1env).resolve "/ws") = true ∧
      Nanobot.resolve_path Nanobot.c1env "notes.txt" (some "/ws") (some "/ws") =
        .ok (Nanobot.resolvedOf Nanobot.c1env "notes.txt" (some "/ws")) :=
  ⟨by decide,
    ((C1_filesystem_sandbox Nanobot.c1env Nanobot.c1fs (some "/ws") "/ws" "/etc/passwd" "" "" "").2.1
      (by decide)).2.1,
    by decide,
    (C1_filesystem_sandbox Nanobot.c1env Nanobot.c1fs (some "/ws") "/ws" "notes.txt" "" "" "").1
      (by decide)⟩

/-- C3: starting from `start_turn` (flag reset), `_sent_in_turn` is true
at the end of the turn exactly when some message-tool invocation
successfully published an outbound; the turn publishes exactly one
outbound per successful invocation; and the agent loop's fallback reply
is suppressed iff the flag is set, otherwise it is exactly one
OutboundMessage carrying `final_content` to the origin channel and chat
id. -/
theorem C3_single_reply (st0 : Nanobot.MTState)
    (invs : List Nanobot.MsgInvocation)
    (originChannel originChatId finalContent : String)
    (metadata : List (String × String)) :
    ((Nanobot.runTurn (Nanobot.startTurn st0) invs).1.sentInTurn = true ↔
      invs.any (Nanobot.invPublishes st0.defaultChannel st0.defaultChatId
        st0.hasCallback) = true) ∧
    ((Nanobot.runTurn (Nanobot.startTurn st0) invs).2.length =
      (invs.filter (Nanobot.invPublishes st0.defaultChannel st0.defaultChatId
        st0.hasCallback)).length) ∧
    ((Nanobot.runTurn (Nanobot.startTurn st0) invs).1.sentInTurn = true ↔
      (Nanobot.runTurn (Nanobot.startTurn st0) invs).2 ≠ []) ∧
    ((Nanobot.runTurn (Nanobot.startTurn st0) invs).1.sentInTurn = true →
      Nanobot.processReply (Nanobot.runTurn (Nanobot.startTurn st0) invs).1.sentInTurn
        originChannel originChatId finalContent metadata = none) ∧
    ((Nanobot.runTurn (Nanobot.startTurn st0) invs).1.sentInTurn = false →
      Nanobot.processReply (Nanobot.runTurn (Nanobot.startTurn st0) invs).1.sentInTurn
        originChannel originChatId finalContent metadata =
        some ⟨originChannel, originChatId, finalContent,
          Nanobot.replyToOf metadata, metadata⟩) := by
  obtain ⟨e1, e2, e3, e4, e5⟩ := Nanobot.runTurn_spec invs (Nanobot.startTurn st0)
  have hsent : (Nanobot.runTurn (Nanobot.startTurn st0) invs).1.sentInTurn =
      invs.any (Nanobot.invPublishes st0.defaultChannel st0.defaultChatId
        st0.hasCallback) := by
    rw [e4]; rfl
  have e5 : (Nanobot.runTurn (Nanobot.startTurn st0) invs).2.length =
      (invs.filter (Nanobot.invPublishes st0.defaultChannel st0.defaultChatId
        st0.hasCallback)).length := by
    rw [e5]; rfl
  refine ⟨by rw [hsent], e5, ?_, ?_, ?_⟩
  · rw [hsent]
    constructor
    · intro hany habs
      rw [habs] at e5
      simp only [List.length_nil] at e5
      obtain ⟨x, hx, hpx⟩ := List.any_eq_true.mp hany
      have : x ∈ invs.filter (Nanobot.invPublishes st0.defaultChannel
          st0.defaultChatId st0.hasCallback) := List.mem_filter.mpr ⟨hx, hpx⟩
      have := List.length_pos.mpr (List.ne_nil_of_mem this)
      omega
    · intro hne
      by_contra hany
      rw [Bool.not_eq_true] at hany
      have hnone : ∀ x ∈ invs, ¬ (Nanobot.invPublishes st0.defaultChannel
          st0.defaultChatId st0.hasCallback x = true) := by
        intro x hx hpx
        have := List.any_eq_true.mpr ⟨x, hx, hpx⟩
        rw [hany] at this
        exact Bool.false_ne_true this
      have hfil : invs.filter (Nanobot.invPublishes st0.defaultChannel
          st0.defaultChatId st0.hasCallback) = [] := by
        rw [List.filter_eq_nil_iff]
        intro a ha
        exact fun h => hnone a ha h
      rw [hfil] at e5
      simp only [List.length_nil] at e5
      exact hne (List.eq_nil_of_length_eq_zero e5)
  · intro hs
    simp [Nanobot.processReply, hs]
  · intro hs
    simp [Nanobot.processReply, hs]

/-- Witness for C3: one successful invocation suppresses the fallback;
a turn with no invocation emits exactly the one fallback outbound. -/
theorem C3_single_reply_witness :
    Nanobot.processReply
        (Nanobot.runTurn (Nanobot.startTurn Nanobot.c3st)
          [⟨"hello", none, none, Except.ok ()⟩]).1.sentInTurn
        "telegram" "42" "done" [] = none ∧
      Nanobot.processReply
        (Nanobot.runTurn (Nanobot.startTurn Nanobot.c3st) []).1.sentInTurn
        "telegram" "42" "done" [("reply_to", "7")] =
        some ⟨"telegram", "42", "done", some "7", [("reply_to", "7")]⟩ :=
  ⟨(C3_single_reply Nanobot.c3st [⟨"hello", none, none, Except.ok ()⟩]
      "telegram" "42" "done" []).2.2.2.1 (by decide),
    (C3_single_reply Nanobot.c3st [] "telegram" "42" "done"
      [("reply_to", "7")]).2.2.2.2 (by decide)⟩

/-- C8: the reason-act cycle makes at most `max_iterations` provider
calls; when every provider response carries tool calls, the bound is
exhausted and the cycle returns null content (together with the tools
used); the enclosing processing then substitutes a non-empty neutral
filler chosen by whether the message was system-injected. -/
theorem C8_iteration_bound (env : Nanobot.LoopEnv) (maxIterations : Nat)
    (msgs : List Nanobot.LMsg) (hasProgress isSystem : Bool) :
    (Nanobot.runAgentLoop env maxIterations msgs hasProgress).calls ≤
        maxIterations ∧
    ((∀ ms, Nanobot.hasToolCalls (env.chat ms) = true) →
      (Nanobot.runAgentLoop env maxIterations msgs hasProgress).content = none ∧
      (Nanobot.runAgentLoop env maxIterations msgs hasProgress).calls =
        maxIterations) ∧
    ((Nanobot.runAgentLoop env maxIterations msgs hasProgress).content = none →
      Nanobot.substituteFiller
          (Nanobot.runAgentLoop env maxIterations msgs hasProgress).content
          isSystem =
        (if isSystem then "Background task completed."
         else "I've completed processing but have no response to give.") ∧
      Nanobot.substituteFiller
          (Nanobot.runAgentLoop env maxIterations msgs hasProgress).content
          isSystem ≠ "") := by
  refine ⟨?_, fun hall => ?_, fun hnone => ?_⟩
  · have := Nanobot.runAgentLoopGo_calls env hasProgress maxIterations msgs [] 0 []
    simpa [Nanobot.runAgentLoop] using this
  · have := Nanobot.runAgentLoopGo_exhaust env hasProgress hall maxIterations
      msgs [] 0 []
    simpa [Nanobot.runAgentLoop] using this
  · rw [hnone]
    refine ⟨rfl, ?_⟩
    cases isSystem <;> simp [Nanobot.substituteFiller]

/-- Witness for C8: two iterations against an always-tool-calling
provider exhaust the bound, return null content, and the system-injected
filler is substituted. -/
theorem C8_iteration_bound_witness :
    (Nanobot.runAgentLoop Nanobot.c8env 2 [] false).calls ≤ 2 ∧
      (Nanobot.runAgentLoop Nanobot.c8env 2 [] false).content = none ∧
      Nanobot.substituteFiller (Nanobot.runAgentLoop Nanobot.c8env 2 [] false).content
        true = "Background task completed." :=
  ⟨(C8_iteration_bound Nanobot.c8env 2 [] false true).1,
    ((C8_iteration_bound Nanobot.c8env 2 [] false true).2.1
      (fun ms => by simp [Nanobot.c8env, Nanobot.c8resp, Nanobot.hasToolCalls])).1,
    ((C8_iteration_bound Nanobot.c8env 2 [] false true).2.2
      ((C8_iteration_bound Nanobot.c8env 2 [] false true).2.1
        (fun ms => by simp [Nanobot.c8env, Nanobot.c8resp, Nanobot.hasToolCalls])).1).1.trans
      (by simp)⟩

/-- Witness for C10 at `text = "aa aa"`, `limit = 3`. -/
theorem C10_split_message_bounded_witness :
    (1 : Nat) ≤ 3 ∧
      (Nanobot.split_message "aa aa" 3 ≠ [] ∧
        (∀ ch ∈ Nanobot.split_message "aa aa" 3, ch.length ≤ 3) ∧
        (("aa aa" : String).length ≤ 3 → Nanobot.split_message "aa aa" 3 = ["aa aa"])) :=
  ⟨by decide, C10_split_message_bounded "aa aa" 3 (by decide)⟩
